import Mathlib

/-!
Conway's Game of Life (`conway.cpp`): the grid engine and the event handler.

A shallow embedding of the grid functions of `conway.cpp`
(`init_grid`, `count_living_neighbours`, `update_cell`, `set_cell`, `step`) and of
`handle_events`, and proofs of their contracts.

Modelling decisions.

* A C `int` is an `Int`.  The only arithmetic the grid functions perform is
  `x - 1`, `x + 1`, `y - 1`, `y + 1`, `count++` and `count--`; the loop counters
  stay within one of the coordinates handed in and `count` within `[-1, 9]`, so
  no operation can leave the range of a 32-bit `int` for coordinates that are
  grid coordinates.  The division `x/CELL_SIZE` of `handle_events` is C's division,
  truncating toward zero: `Int.tdiv`.
* The arrays `int grid[GRID_SIZE][GRID_SIZE]` (in `main`) and
  `int counts[GRID_SIZE][GRID_SIZE]` (in `step`) are memory: a `Grid` maps a
  row index and a column index to the stored `int`.  Every array access of the
  source goes through `readCell` / `writeCell`, which check both indices
  against `[0, GRID_SIZE)` and return `none` for an access outside the array
  (undefined behaviour in C).  All grid functions therefore live in `Option`,
  and `none` has no other source than such an access.
* A `for` loop whose counter is not assigned in its body is `forLt` / `forLe`:
  the body is run for each counter value in turn, threading the state.
* `counts` is a local array that `step` does not initialise: its initial
  content is an arbitrary parameter `counts0` of `step`.
* `handle_events` is a function of the state it touches (the grid and the two
  global flags) and of the events waiting in the SDL queue.  The SDL constants
  it compares against carry the values the SDL2 headers give them.
-/

namespace Conway

/-! ## Constants (lines 6-17 of `conway.cpp`) -/

/-- Height and width of the grid in cells. -/
def GRID_SIZE : Int := 21

/-- Numerical value for a living cell. -/
def LIVE_CELL : Int := 1

/-- Numerical value for a dead cell. -/
def DEAD_CELL : Int := 0

/-- Exactly this many neighbours and a cell comes to life. -/
def REPRODUCE_NUM : Int := 3

/-- More neighbours than this and the cell dies. -/
def OVERPOPULATE_NUM : Int := 3

/-- Fewer neighbours than this and the cell dies. -/
def ISOLATION_NUM : Int := 2

/-- Height and width of the screen in pixels. -/
def SCREEN_SIZE : Int := 800

/-- Size of a cell in pixels: `SCREEN_SIZE/GRID_SIZE` with C's truncating division. -/
def CELL_SIZE : Int := Int.tdiv SCREEN_SIZE GRID_SIZE

/-! ## Memory -/

/-- Content of an `int [GRID_SIZE][GRID_SIZE]` array: `g i j` is the `int` stored
at row `i`, column `j`, that is `g[i][j]`.  Only indices in `[0, GRID_SIZE)` belong
to the array. -/
abbrev Grid := Int → Int → Int

/-- Both indices of `a[i][j]` lie inside an `int [GRID_SIZE][GRID_SIZE]` array. -/
def inBounds (i j : Int) : Prop :=
  0 ≤ i ∧ i < GRID_SIZE ∧ 0 ≤ j ∧ j < GRID_SIZE

instance (i j : Int) : Decidable (inBounds i j) := by
  unfold inBounds; infer_instance

/-- The read `a[i][j]`; `none` when an index is outside the array. -/
def readCell (a : Grid) (i j : Int) : Option Int :=
  if inBounds i j then some (a i j) else none

/-- The array content after `a[i][j] = v`. -/
def store (a : Grid) (i j v : Int) : Grid :=
  fun i' j' => if i' = i ∧ j' = j then v else a i' j'

/-- The write `a[i][j] = v`; `none` when an index is outside the array. -/
def writeCell (a : Grid) (i j v : Int) : Option Grid :=
  if inBounds i j then some (store a i j v) else none

/-! ## Loops -/

/-- Run `body` for the `n` consecutive counter values `lo, lo+1, ...`. -/
def forCount {σ : Type} (body : Int → σ → Option σ) : Nat → Int → σ → Option σ
  | 0, _, s => some s
  | n + 1, lo, s => (body lo s).bind (forCount body n (lo + 1))

/-- The loop `for (i = lo; i < hi; i++) body`. -/
def forLt {σ : Type} (lo hi : Int) (body : Int → σ → Option σ) (s : σ) : Option σ :=
  forCount body (hi - lo).toNat lo s

/-- The loop `for (i = lo; i <= hi; i++) body`. -/
def forLe {σ : Type} (lo hi : Int) (body : Int → σ → Option σ) (s : σ) : Option σ :=
  forLt lo (hi + 1) body s

/-! ## The grid functions (lines 79-166 of `conway.cpp`) -/

/-- The function `init_grid`: set every cell of the `size` x `size` grid to dead. -/
def init_grid (grid : Grid) (size : Int) : Option Grid :=
  forLt 0 size (fun y grid =>
    forLt 0 size (fun x grid =>
      writeCell grid y x DEAD_CELL) grid) grid

/-- The function `count_living_neighbours`: count the living cells of the 3x3 block around
`(x, y)` that are inside the `size` x `size` grid, then take the centre off. -/
def count_living_neighbours (grid : Grid) (size x y : Int) : Option Int := do
  let count ← forLe (y - 1) (y + 1) (fun i count =>
    forLe (x - 1) (x + 1) (fun j count =>
      if i ≥ 0 ∧ j ≥ 0 ∧ i < size ∧ j < size then do
        let v ← readCell grid i j
        if v = LIVE_CELL then some (count + 1) else some count
      else some count) count) 0
  let c ← readCell grid y x
  if c ≠ DEAD_CELL then some (count - 1) else some count

/-- The function `update_cell`: bring the cell to life on exactly `REPRODUCE_NUM` neighbours,
kill it on more than `OVERPOPULATE_NUM` or fewer than `ISOLATION_NUM`, and touch
nothing otherwise. -/
def update_cell (grid : Grid) (_size x y num_neighbours : Int) : Option Grid :=
  if num_neighbours = REPRODUCE_NUM then
    writeCell grid y x LIVE_CELL
  else if num_neighbours > OVERPOPULATE_NUM ∨ num_neighbours < ISOLATION_NUM then
    writeCell grid y x DEAD_CELL
  else some grid

/-- The function `set_cell`: store `val` at `(x, y)` when both coordinates are in `[0, size)`. -/
def set_cell (grid : Grid) (size x y val : Int) : Option Grid :=
  if x ≥ 0 ∧ x < size ∧ y ≥ 0 ∧ y < size then
    writeCell grid y x val
  else some grid

/-- The function `step`: first store the neighbour count of every cell of the `size` x `size`
grid in `counts`, then update every cell of the `GRID_SIZE` x `GRID_SIZE` grid
from its stored count.  `counts0` is the content of the uninitialised local
array `counts` on entry. -/
def step (counts0 grid : Grid) (size : Int) : Option Grid := do
  let counts ← forLt 0 size (fun y counts =>
    forLt 0 size (fun x counts => do
      let c ← count_living_neighbours grid size x y
      writeCell counts y x c) counts) counts0
  forLt 0 GRID_SIZE (fun y grid =>
    forLt 0 GRID_SIZE (fun x grid => do
      let c ← readCell counts y x
      update_cell grid size x y c) grid) grid

/-! ## Closed forms -/

/-- What cell `(i, j)` adds to `count` in the loop of `count_living_neighbours`. -/
def live (grid : Grid) (size i j : Int) : Int :=
  if i ≥ 0 ∧ j ≥ 0 ∧ i < size ∧ j < size then
    if grid i j = LIVE_CELL then 1 else 0
  else 0

/-- What the row `i` of the 3x3 block around column `x` adds to `count`. -/
def liveRow (grid : Grid) (size x i : Int) : Int :=
  live grid size i (x - 1) + live grid size i x + live grid size i (x + 1)

/-- Closed form of the value returned by `count_living_neighbours`. -/
def neighbours (grid : Grid) (size x y : Int) : Int :=
  liveRow grid size x (y - 1) + liveRow grid size x y + liveRow grid size x (y + 1)
    - (if grid y x ≠ DEAD_CELL then 1 else 0)

/-- The array after every cell `(i, j)` with `ylo ≤ i < yhi` and `xlo ≤ j < xhi`
has been replaced by `F i j` of its old value. -/
def mapBlock (F : Int → Int → Int → Int) (ylo yhi xlo xhi : Int) (a : Grid) : Grid :=
  fun i j => if ylo ≤ i ∧ i < yhi ∧ xlo ≤ j ∧ j < xhi then F i j (a i j) else a i j

/-- The value `update_cell` leaves in a cell that held `v`, given the count `c`. -/
def nextCell (c v : Int) : Int :=
  if c = REPRODUCE_NUM then LIVE_CELL
  else if c > OVERPOPULATE_NUM ∨ c < ISOLATION_NUM then DEAD_CELL
  else v

/-- Content of `counts` after the first pair of loops of `step`. -/
def countsOf (counts0 grid : Grid) (size : Int) : Grid :=
  mapBlock (fun y x _ => neighbours grid size x y) 0 size 0 size counts0

/-- Closed form of the grid `step` returns. -/
def stepGrid (counts0 grid : Grid) (size : Int) : Grid :=
  mapBlock (fun y x v => nextCell (countsOf counts0 grid size y x) v)
    0 GRID_SIZE 0 GRID_SIZE grid

/-! ## Predicates, patterns and the specification's neighbour count -/

/-- Every cell of the `GRID_SIZE` x `GRID_SIZE` grid is `DEAD_CELL` or `LIVE_CELL`. -/
def Binary (grid : Grid) : Prop :=
  ∀ i j, inBounds i j → grid i j = DEAD_CELL ∨ grid i j = LIVE_CELL

/-- The two arrays hold the same values in every cell of the `GRID_SIZE` x `GRID_SIZE` grid. -/
def SameCells (g p : Grid) : Prop :=
  ∀ i j, inBounds i j → g i j = p i j

instance (grid : Grid) : Decidable (Binary grid) :=
  decidable_of_iff
    (∀ i ∈ Finset.Ico 0 GRID_SIZE, ∀ j ∈ Finset.Ico 0 GRID_SIZE,
      grid i j = DEAD_CELL ∨ grid i j = LIVE_CELL)
    ⟨fun h i j hij => h i (Finset.mem_Ico.2 ⟨hij.1, hij.2.1⟩) j (Finset.mem_Ico.2 hij.2.2),
     fun h i hi j hj => h i j ⟨(Finset.mem_Ico.1 hi).1, (Finset.mem_Ico.1 hi).2,
       (Finset.mem_Ico.1 hj).1, (Finset.mem_Ico.1 hj).2⟩⟩

instance (g p : Grid) : Decidable (SameCells g p) :=
  decidable_of_iff
    (∀ i ∈ Finset.Ico 0 GRID_SIZE, ∀ j ∈ Finset.Ico 0 GRID_SIZE, g i j = p i j)
    ⟨fun h i j hij => h i (Finset.mem_Ico.2 ⟨hij.1, hij.2.1⟩) j (Finset.mem_Ico.2 hij.2.2),
     fun h i hi j hj => h i j ⟨(Finset.mem_Ico.1 hi).1, (Finset.mem_Ico.1 hi).2,
       (Finset.mem_Ico.1 hj).1, (Finset.mem_Ico.1 hj).2⟩⟩

/-- The living neighbours of `(x, y)` as the specification describes them: the
cells `(j, i)` (column `j`, row `i`) of the `size` x `size` grid with `|j - x| ≤ 1`,
`|i - y| ≤ 1`, `(j, i) ≠ (x, y)` and `grid[i][j] = LIVE_CELL`. -/
def liveNeighbourCells (grid : Grid) (size x y : Int) : Finset (Int × Int) :=
  (Finset.Ico 0 size ×ˢ Finset.Ico 0 size).filter
    (fun p => |p.1 - x| ≤ 1 ∧ |p.2 - y| ≤ 1 ∧ p ≠ (x, y) ∧ grid p.2 p.1 = LIVE_CELL)

/-- What the cell in column `j`, row `i` counts for as a neighbour of `(x, y)`. -/
def asNeighbour (grid : Grid) (size x y j i : Int) : Int :=
  if (0 ≤ j ∧ j < size) ∧ (0 ≤ i ∧ i < size) ∧ ¬(j = x ∧ i = y) ∧ grid i j = LIVE_CELL
  then 1 else 0

/-- The textbook rules, after the specification's words: a live cell with fewer than
two live neighbours dies, one with two or three lives on, one with more than three
dies; a dead cell with exactly three live neighbours comes to life. -/
def fourRule (v : Int) (n : Nat) : Int :=
  if v = LIVE_CELL then
    if n < 2 then DEAD_CELL else if n = 2 ∨ n = 3 then LIVE_CELL else DEAD_CELL
  else if n = 3 then LIVE_CELL else DEAD_CELL

/-- Living cells of the 3x3 block around `(x, y)` with no clipping, centre taken off. -/
def freeCount (p : Grid) (x y : Int) : Int :=
  (if p (y - 1) (x - 1) = LIVE_CELL then 1 else 0) + (if p (y - 1) x = LIVE_CELL then 1 else 0)
    + (if p (y - 1) (x + 1) = LIVE_CELL then 1 else 0)
  + ((if p y (x - 1) = LIVE_CELL then 1 else 0) + (if p y x = LIVE_CELL then 1 else 0)
    + (if p y (x + 1) = LIVE_CELL then 1 else 0))
  + ((if p (y + 1) (x - 1) = LIVE_CELL then 1 else 0) + (if p (y + 1) x = LIVE_CELL then 1 else 0)
    + (if p (y + 1) (x + 1) = LIVE_CELL then 1 else 0))
  - (if p y x ≠ DEAD_CELL then 1 else 0)

/-- The all-dead grid with one living cell in column `cx`, row `cy`. -/
def single (cx cy : Int) : Grid :=
  fun i j => if i = cy ∧ j = cx then LIVE_CELL else DEAD_CELL

/-- The all-dead grid with the horizontal blinker centred in column `cx`, row `cy`. -/
def blinkerH (cx cy : Int) : Grid :=
  fun i j => if i = cy ∧ cx - 1 ≤ j ∧ j ≤ cx + 1 then LIVE_CELL else DEAD_CELL

/-- The all-dead grid with the vertical blinker centred in column `cx`, row `cy`. -/
def blinkerV (cx cy : Int) : Grid :=
  fun i j => if j = cx ∧ cy - 1 ≤ i ∧ i ≤ cy + 1 then LIVE_CELL else DEAD_CELL

/-- The blinker centred in column `cx`, row `cy`: vertical or horizontal. -/
def blinker (vertical : Bool) (cx cy : Int) : Grid :=
  if vertical then blinkerV cx cy else blinkerH cx cy

/-- The all-dead grid with the 2x2 block on columns `x0, x0 + 1` and rows `y0, y0 + 1`. -/
def block (x0 y0 : Int) : Grid :=
  fun i j => if (y0 ≤ i ∧ i ≤ y0 + 1) ∧ x0 ≤ j ∧ j ≤ x0 + 1 then LIVE_CELL else DEAD_CELL

/-! ## Event handling (lines 244-285 of `conway.cpp`) -/

/-- Value of SDL2's `SDL_BUTTON_LEFT` (`SDL_mouse.h`, a library outside this repository). -/
def SDL_BUTTON_LEFT : Nat := 1

/-- Value of SDL2's `SDL_BUTTON_MIDDLE`. -/
def SDL_BUTTON_MIDDLE : Nat := 2

/-- Value of SDL2's `SDL_BUTTON_RIGHT`. -/
def SDL_BUTTON_RIGHT : Nat := 3

/-- Value of SDL2's `SDL_BUTTON_LMASK`, that is `1 << (SDL_BUTTON_LEFT - 1)`. -/
def SDL_BUTTON_LMASK : Nat := 1

/-- Value of SDL2's `SDL_BUTTON_MMASK`, that is `1 << (SDL_BUTTON_MIDDLE - 1)`. -/
def SDL_BUTTON_MMASK : Nat := 2

/-- Value of SDL2's `SDL_BUTTON_RMASK`, that is `1 << (SDL_BUTTON_RIGHT - 1)`. -/
def SDL_BUTTON_RMASK : Nat := 4

/-- Value of SDL2's key code `SDLK_SPACE` (`SDL_keycode.h`): the character `' '`. -/
def SDLK_SPACE : Int := 32

/-- Value of SDL2's key code `SDLK_c`: the character `'c'`. -/
def SDLK_c : Int := 99

/-- The `SDL_Event` cases `handle_events` tells apart by `event.type`, each with the
fields the code reads: `SDL_QUIT`; `SDL_MOUSEMOTION` with `motion.state`, `motion.x`,
`motion.y`; `SDL_MOUSEBUTTONDOWN` with `button.button`, `button.x`, `button.y`;
`SDL_KEYDOWN` with `key.keysym.sym`; and any other event type. -/
inductive Event where
  | quit
  | mouseMotion (state : Nat) (x y : Int)
  | mouseButtonDown (button : Nat) (x y : Int)
  | keyDown (sym : Int)
  | other

/-- What `handle_events` reads and writes: the grid and the globals `g_animating`
and `g_user_quit`. -/
structure Shell where
  grid : Grid
  animating : Bool
  user_quit : Bool

/-- The body of the loop of `handle_events`, for one polled event. -/
def handle_event (size : Int) (s : Shell) : Event → Option Shell
  | Event.quit => some { s with user_quit := true }
  | Event.mouseMotion state x y =>
    if state &&& (SDL_BUTTON_LMASK ||| SDL_BUTTON_RMASK) ≠ 0 then do
      let grid ← set_cell s.grid size (Int.tdiv x CELL_SIZE) (Int.tdiv y CELL_SIZE)
        (if state &&& SDL_BUTTON_LMASK ≠ 0 then LIVE_CELL else DEAD_CELL)
      some { s with grid := grid }
    else some s
  | Event.mouseButtonDown button x y => do
    let grid ← set_cell s.grid size (Int.tdiv x CELL_SIZE) (Int.tdiv y CELL_SIZE)
      (if button = SDL_BUTTON_LEFT then LIVE_CELL else DEAD_CELL)
    some { s with grid := grid }
  | Event.keyDown sym =>
    if sym = SDLK_SPACE then some { s with animating := !s.animating }
    else if sym = SDLK_c then do
      let grid ← init_grid s.grid size
      some { grid := grid, animating := false, user_quit := s.user_quit }
    else some s
  | Event.other => some s

/-- The function `handle_events`: the loop `while (SDL_PollEvent(&event))` over the
events waiting in the queue, oldest first. -/
def handle_events (size : Int) (s : Shell) : List Event → Option Shell
  | [] => some s
  | e :: es => (handle_event size s e).bind (fun s' => handle_events size s' es)

/-- Event handling changed cell `(cx, cy)` of the grid to `v` and nothing else: every
other cell and both flags are as before. -/
def CellSet (s s' : Shell) (cx cy v : Int) : Prop :=
  s'.grid cy cx = v ∧ (∀ i j, ¬(i = cy ∧ j = cx) → s'.grid i j = s.grid i j) ∧
    s'.animating = s.animating ∧ s'.user_quit = s.user_quit

/-! ## Border cells -/

/-- The in-grid neighbours of `(x, y)`: the cells `(j, i)` (column `j`, row `i`) of the
`size` x `size` grid with `|j - x| ≤ 1`, `|i - y| ≤ 1` and `(j, i) ≠ (x, y)`. -/
def gridNeighbours (size x y : Int) : Finset (Int × Int) :=
  (Finset.Ico 0 size ×ˢ Finset.Ico 0 size).filter
    (fun p => |p.1 - x| ≤ 1 ∧ |p.2 - y| ≤ 1 ∧ p ≠ (x, y))

/-- The cell `(x, y)` is one of the four corners of the `size` x `size` grid. -/
def isCorner (size x y : Int) : Prop :=
  (x = 0 ∨ x = size - 1) ∧ (y = 0 ∨ y = size - 1)

/-- The cell `(x, y)` is on an edge of the `size` x `size` grid and is not a corner. -/
def isEdge (size x y : Int) : Prop :=
  ((x = 0 ∨ x = size - 1) ∧ 0 < y ∧ y < size - 1) ∨
  ((y = 0 ∨ y = size - 1) ∧ 0 < x ∧ x < size - 1)

instance (size x y : Int) : Decidable (isCorner size x y) := by
  unfold isCorner; infer_instance

instance (size x y : Int) : Decidable (isEdge size x y) := by
  unfold isEdge; infer_instance

/-! ## Memory and loop lemmas -/

/-- A read inside the array returns the stored value. -/
theorem readCell_of_inBounds (a : Grid) {i j : Int} (h : inBounds i j) :
    readCell a i j = some (a i j) := by
  simp [readCell, h]

/-- A write inside the array succeeds. -/
theorem writeCell_of_inBounds (a : Grid) {i j : Int} (v : Int) (h : inBounds i j) :
    writeCell a i j v = some (store a i j v) := by
  simp [writeCell, h]

/-- Storing the value a cell already holds changes nothing. -/
theorem store_self (a : Grid) (i j : Int) : store a i j (a i j) = a := by
  funext i' j'
  unfold store
  split_ifs with h
  · rw [h.1, h.2]
  · rfl

/-- One row: the inner loop replaces the cells `x0 ≤ j < x0 + n` of row `y`. -/
theorem forCount_row (b : Int → Int → Grid → Option Grid) (F : Int → Int → Int → Int)
    (y : Int) (n : Nat) (x0 : Int) (a : Grid)
    (hb : ∀ x a, x0 ≤ x → x < x0 + n → b y x a = some (store a y x (F y x (a y x)))) :
    forCount (fun x a => b y x a) n x0 a = some (mapBlock F y (y + 1) x0 (x0 + n) a) := by
  induction n generalizing x0 a with
  | zero =>
    simp only [forCount, Option.some.injEq]
    funext i j
    unfold mapBlock
    rw [if_neg]
    push_cast
    omega
  | succ n ih =>
    push_cast at hb
    simp only [forCount]
    rw [hb x0 a le_rfl (by omega), Option.some_bind,
      ih (x0 + 1) _ (fun x a h h' => hb x a (by omega) (by omega))]
    congr 1
    funext i j
    unfold mapBlock store
    push_cast
    by_cases hit : i = y ∧ j = x0
    · obtain ⟨hi, hj⟩ := hit
      subst hi hj
      rw [if_neg (by omega), if_pos ⟨rfl, rfl⟩, if_pos (by omega)]
    · rw [if_neg hit]
      exact if_congr (by omega) rfl rfl

/-- The outer loop replaces the rows `y0 ≤ i < y0 + m`, each over `xlo ≤ j < xhi`. -/
theorem forCount_rows (b : Int → Int → Grid → Option Grid) (F : Int → Int → Int → Int)
    (xlo xhi : Int) (m : Nat) (y0 : Int) (a : Grid)
    (hb : ∀ y x a, y0 ≤ y → y < y0 + m → xlo ≤ x → x < xhi →
      b y x a = some (store a y x (F y x (a y x)))) :
    forCount (fun y a => forLt xlo xhi (fun x a => b y x a) a) m y0 a
      = some (mapBlock F y0 (y0 + m) xlo xhi a) := by
  induction m generalizing y0 a with
  | zero =>
    simp only [forCount, Option.some.injEq]
    funext i j
    unfold mapBlock
    rw [if_neg]
    push_cast
    omega
  | succ m ih =>
    push_cast at hb
    have hrow : forLt xlo xhi (fun x a => b y0 x a) a
        = some (mapBlock F y0 (y0 + 1) xlo (xlo + ((xhi - xlo).toNat : Nat)) a) :=
      forCount_row b F y0 (xhi - xlo).toNat xlo a
        (fun x a hx hx' => hb y0 x a le_rfl (by omega) hx (by omega))
    simp only [forCount]
    rw [hrow, Option.some_bind,
      ih (y0 + 1) _ (fun y x a h h' hx hx' => hb y x a (by omega) (by omega) hx hx')]
    congr 1
    funext i j
    unfold mapBlock
    push_cast
    by_cases hit : i = y0 ∧ xlo ≤ j ∧ j < xhi
    · obtain ⟨hi, hj⟩ := hit
      subst hi
      rw [if_neg (by omega), if_pos (by omega), if_pos (by omega)]
    · rw [if_neg (by omega) (c := y0 ≤ i ∧ i < y0 + 1 ∧ _)]
      exact if_congr (by omega) rfl rfl

/-- Two nested counting loops whose body replaces the cell it is at by `F` of
its old value replace every cell of the block they range over. -/
theorem forLt_grid (b : Int → Int → Grid → Option Grid) (F : Int → Int → Int → Int)
    (ylo yhi xlo xhi : Int) (a : Grid)
    (hb : ∀ y x a, ylo ≤ y → y < yhi → xlo ≤ x → x < xhi →
      b y x a = some (store a y x (F y x (a y x)))) :
    forLt ylo yhi (fun y a => forLt xlo xhi (fun x a => b y x a) a) a
      = some (mapBlock F ylo yhi xlo xhi a) := by
  rw [forLt, forCount_rows b F xlo xhi _ ylo a
    (fun y x a h h' hx hx' => hb y x a h (by omega) hx hx')]
  congr 1
  funext i j
  unfold mapBlock
  exact if_congr (by omega) rfl rfl

/-! ## Closed form of `count_living_neighbours` -/

/-- The loop `for (i = lo - 1; i <= lo + 1; i++)` runs its body three times. -/
theorem forLe_three {σ : Type} (lo : Int) (body : Int → σ → Option σ) (s : σ) :
    forLe (lo - 1) (lo + 1) body s
      = ((body (lo - 1) s).bind (body lo)).bind (body (lo + 1)) := by
  have h : (lo + 1 + 1 - (lo - 1)).toNat = 3 := by omega
  have e1 : lo - 1 + 1 = lo := by omega
  simp only [forLe, forLt, h, forCount, e1]
  cases body (lo - 1) s with
  | none => rfl
  | some s1 =>
    simp only [Option.some_bind]
    cases body lo s1 with
    | none => rfl
    | some s2 =>
      simp only [Option.some_bind]
      cases body (lo + 1) s2 <;> rfl

/-- The body of the inner loop of `count_living_neighbours` adds `live` to `count`;
with `size ≤ GRID_SIZE` the guarded read is inside the array. -/
theorem count_cell (grid : Grid) {size : Int} (hs : size ≤ GRID_SIZE) (i j count : Int) :
    (if i ≥ 0 ∧ j ≥ 0 ∧ i < size ∧ j < size then do
        let v ← readCell grid i j
        if v = LIVE_CELL then some (count + 1) else some count
      else some count) = some (count + live grid size i j) := by
  unfold live
  by_cases h : i ≥ 0 ∧ j ≥ 0 ∧ i < size ∧ j < size
  · have hb : inBounds i j := ⟨h.1, by omega, h.2.1, by omega⟩
    rw [if_pos h, if_pos h, readCell_of_inBounds grid hb]
    by_cases hv : grid i j = LIVE_CELL <;> simp [hv]
  · rw [if_neg h, if_neg h, add_zero]

/-- For a cell of the array and `size ≤ GRID_SIZE`, `count_living_neighbours` returns
its closed form `neighbours`. -/
theorem count_living_neighbours_eq (grid : Grid) {size x y : Int}
    (hs : size ≤ GRID_SIZE) (hxy : inBounds y x) :
    count_living_neighbours grid size x y = some (neighbours grid size x y) := by
  unfold count_living_neighbours
  simp only [forLe_three, count_cell grid hs]
  simp only [readCell_of_inBounds grid hxy, Option.some_bind, Option.bind_eq_bind]
  unfold neighbours liveRow
  by_cases hc : grid y x = DEAD_CELL
  · simp only [hc, ne_eq, not_true_eq_false, if_false, Option.some.injEq]
    ring
  · simp only [hc, ne_eq, not_false_eq_true, if_true, Option.some.injEq]
    ring

/-! ## Closed forms of `init_grid`, `update_cell` and `step` -/

/-- On a cell of the array `update_cell` succeeds and leaves `nextCell` there. -/
theorem update_cell_eq (grid : Grid) (size : Int) {x y : Int} (c : Int) (h : inBounds y x) :
    update_cell grid size x y c = some (store grid y x (nextCell c (grid y x))) := by
  unfold update_cell nextCell
  by_cases h1 : c = REPRODUCE_NUM
  · rw [if_pos h1, if_pos h1, writeCell_of_inBounds grid _ h]
  · rw [if_neg h1, if_neg h1]
    by_cases h2 : c > OVERPOPULATE_NUM ∨ c < ISOLATION_NUM
    · rw [if_pos h2, if_pos h2, writeCell_of_inBounds grid _ h]
    · rw [if_neg h2, if_neg h2, store_self]

/-- With `size ≤ GRID_SIZE`, `init_grid` succeeds and zeroes the `size` x `size` block. -/
theorem init_grid_eq (grid : Grid) {size : Int} (hs : size ≤ GRID_SIZE) :
    init_grid grid size = some (mapBlock (fun _ _ _ => DEAD_CELL) 0 size 0 size grid) := by
  have h := forLt_grid (fun y x g => writeCell g y x DEAD_CELL) (fun _ _ _ => DEAD_CELL)
    0 size 0 size grid
    (fun y x a h0 h1 h2 h3 => writeCell_of_inBounds a _ ⟨h0, by omega, h2, by omega⟩)
  exact h

/-- The body of the second pair of loops of `step`. -/
theorem step_body2 (cs a : Grid) (size : Int) {x y : Int} (hb : inBounds y x) :
    (do let c ← readCell cs y x
        update_cell a size x y c) = some (store a y x (nextCell (cs y x) (a y x))) := by
  simp only [readCell_of_inBounds _ hb, update_cell_eq a size _ hb,
          Option.some_bind, Option.bind_eq_bind]

/-- The body of the first pair of loops of `step`. -/
theorem step_body1 (grid cs : Grid) {size x y : Int} (hs : size ≤ GRID_SIZE)
    (h0 : 0 ≤ y) (h1 : y < size) (h2 : 0 ≤ x) (h3 : x < size) :
    (do let c ← count_living_neighbours grid size x y
        writeCell cs y x c) = some (store cs y x (neighbours grid size x y)) := by
  have hb : inBounds y x := ⟨h0, by omega, h2, by omega⟩
  simp only [count_living_neighbours_eq grid hs hb, writeCell_of_inBounds cs _ hb,
    Option.some_bind, Option.bind_eq_bind]

/-- The second pair of loops of `step`, for any content `cs` of `counts`. -/
theorem step_loop2 (cs grid : Grid) (size : Int) :
    forLt 0 GRID_SIZE (fun y g =>
      forLt 0 GRID_SIZE (fun x g => do
        let c ← readCell cs y x
        update_cell g size x y c) g) grid
      = some (mapBlock (fun y x v => nextCell (cs y x) v) 0 GRID_SIZE 0 GRID_SIZE grid) := by
  have h := forLt_grid (fun y x g => do
        let c ← readCell cs y x
        update_cell g size x y c)
      (fun y x v => nextCell (cs y x) v) 0 GRID_SIZE 0 GRID_SIZE grid
      (fun y x a h0 h1 h2 h3 => step_body2 cs a size ⟨h0, h1, h2, h3⟩)
  exact h

/-- The first pair of loops of `step` fills `counts` with the neighbour counts. -/
theorem step_loop1 (counts0 grid : Grid) {size : Int} (hs : size ≤ GRID_SIZE) :
    forLt 0 size (fun y counts =>
      forLt 0 size (fun x counts => do
        let c ← count_living_neighbours grid size x y
        writeCell counts y x c) counts) counts0 = some (countsOf counts0 grid size) := by
  have h := forLt_grid (fun y x counts => do
        let c ← count_living_neighbours grid size x y
        writeCell counts y x c) (fun y x _ => neighbours grid size x y) 0 size 0 size counts0
      (fun y x a h0 h1 h2 h3 => step_body1 grid a hs h0 h1 h2 h3)
  exact h

/-- With `size ≤ GRID_SIZE`, `step` succeeds and returns its closed form `stepGrid`. -/
theorem step_eq (counts0 grid : Grid) {size : Int} (hs : size ≤ GRID_SIZE) :
    step counts0 grid size = some (stepGrid counts0 grid size) := by
  unfold step stepGrid
  rw [step_loop1 counts0 grid hs]
  refine (Option.some_bind _ _).trans ?_
  exact step_loop2 (countsOf counts0 grid size) grid size

/-! ## Cells after `step` -/

/-- A cell of the grid after `step(grid, GRID_SIZE)`. -/
theorem stepGrid_apply (counts0 grid : Grid) {x y : Int} (h : inBounds y x) :
    stepGrid counts0 grid GRID_SIZE y x
      = nextCell (neighbours grid GRID_SIZE x y) (grid y x) := by
  have h' := h
  unfold inBounds at h'
  simp only [stepGrid, countsOf, mapBlock, if_pos h']

theorem nextCell_binary (c v : Int) (hv : v = DEAD_CELL ∨ v = LIVE_CELL) :
    nextCell c v = DEAD_CELL ∨ nextCell c v = LIVE_CELL := by
  unfold nextCell
  split_ifs
  · exact Or.inr rfl
  · exact Or.inl rfl
  · exact hv

theorem stepGrid_binary (counts0 grid : Grid) (size : Int) (hg : Binary grid) :
    Binary (stepGrid counts0 grid size) := by
  intro i j hij
  have h' := hij
  unfold inBounds at h'
  unfold stepGrid mapBlock
  rw [if_pos h']
  exact nextCell_binary _ _ (hg i j hij)

/-! ## `count_living_neighbours` against the specification's neighbour set -/

theorem three_eq (x : Int) : Finset.Icc (x - 1) (x + 1) = {x - 1, x, x + 1} := by
  ext a
  simp only [Finset.mem_Icc, Finset.mem_insert, Finset.mem_singleton]
  omega

theorem sum_three (x : Int) (f : Int → Int) :
    ∑ a in Finset.Icc (x - 1) (x + 1), f a = f (x - 1) + f x + f (x + 1) := by
  rw [three_eq, Finset.sum_insert, Finset.sum_insert, Finset.sum_singleton, add_assoc]
  · simp only [Finset.mem_singleton]; omega
  · simp only [Finset.mem_insert, Finset.mem_singleton]; omega

theorem liveNeighbourCells_eq (grid : Grid) (size x y : Int) :
    liveNeighbourCells grid size x y
      = (Finset.Icc (x - 1) (x + 1) ×ˢ Finset.Icc (y - 1) (y + 1)).filter
          (fun p => (0 ≤ p.1 ∧ p.1 < size) ∧ (0 ≤ p.2 ∧ p.2 < size) ∧
            ¬(p.1 = x ∧ p.2 = y) ∧ grid p.2 p.1 = LIVE_CELL) := by
  ext ⟨j, i⟩
  simp only [liveNeighbourCells, Finset.mem_filter, Finset.mem_product, Finset.mem_Ico,
    Finset.mem_Icc, abs_le, ne_eq, Prod.mk.injEq]
  constructor
  · rintro ⟨⟨h1, h2⟩, h3, h4, h5, h6⟩
    exact ⟨⟨by omega, by omega⟩, h1, h2, h5, h6⟩
  · rintro ⟨⟨h1, h2⟩, h3, h4, h5, h6⟩
    exact ⟨⟨h3, h4⟩, by omega, by omega, h5, h6⟩

theorem card_liveNeighbourCells (grid : Grid) (size x y : Int) :
    ((liveNeighbourCells grid size x y).card : Int)
      = ∑ j in Finset.Icc (x - 1) (x + 1), ∑ i in Finset.Icc (y - 1) (y + 1),
          asNeighbour grid size x y j i := by
  rw [liveNeighbourCells_eq, Finset.card_filter, Nat.cast_sum, Finset.sum_product]
  refine Finset.sum_congr rfl (fun j _ => Finset.sum_congr rfl (fun i _ => ?_))
  unfold asNeighbour
  split_ifs <;> simp

theorem asNeighbour_off (grid : Grid) (size x y j i : Int) (h : ¬(j = x ∧ i = y)) :
    asNeighbour grid size x y j i = live grid size i j := by
  unfold asNeighbour live
  by_cases hr : i ≥ 0 ∧ j ≥ 0 ∧ i < size ∧ j < size
  · rw [if_pos hr]
    by_cases hl : grid i j = LIVE_CELL
    · rw [if_pos hl, if_pos ⟨⟨hr.2.1, hr.2.2.2⟩, ⟨hr.1, hr.2.2.1⟩, h, hl⟩]
    · rw [if_neg hl, if_neg (fun h' => hl h'.2.2.2)]
  · rw [if_neg hr, if_neg (fun h' => hr ⟨h'.2.1.1, h'.1.1, h'.2.1.2, h'.1.2⟩)]

theorem asNeighbour_centre (grid : Grid) (size x y : Int) :
    asNeighbour grid size x y x y = 0 := by
  unfold asNeighbour
  rw [if_neg (fun h' => h'.2.2.1 ⟨rfl, rfl⟩)]

/-- The closed form of `count_living_neighbours` counts the living neighbours of the
specification whenever the centre cell is in the grid and holds 0 or 1. -/
theorem neighbours_eq_card (grid : Grid) (size x y : Int)
    (hx : 0 ≤ x ∧ x < size) (hy : 0 ≤ y ∧ y < size)
    (hc : grid y x = DEAD_CELL ∨ grid y x = LIVE_CELL) :
    neighbours grid size x y = ((liveNeighbourCells grid size x y).card : Int) := by
  rw [card_liveNeighbourCells]
  simp only [sum_three]
  rw [asNeighbour_centre,
    asNeighbour_off grid size x y (x - 1) (y - 1) (by omega),
    asNeighbour_off grid size x y (x - 1) y (by omega),
    asNeighbour_off grid size x y (x - 1) (y + 1) (by omega),
    asNeighbour_off grid size x y x (y - 1) (by omega),
    asNeighbour_off grid size x y x (y + 1) (by omega),
    asNeighbour_off grid size x y (x + 1) (y - 1) (by omega),
    asNeighbour_off grid size x y (x + 1) y (by omega),
    asNeighbour_off grid size x y (x + 1) (y + 1) (by omega)]
  have hcen : live grid size y x = if grid y x ≠ DEAD_CELL then 1 else 0 := by
    unfold live
    rw [if_pos ⟨hy.1, hx.1, hy.2, hx.2⟩]
    rcases hc with h | h <;> rw [h] <;> decide
  unfold neighbours liveRow
  rw [← hcen]
  ring

theorem card_liveNeighbourCells_le (grid : Grid) (size x y : Int) :
    (liveNeighbourCells grid size x y).card ≤ 8 := by
  have h : liveNeighbourCells grid size x y
      ⊆ (Finset.Icc (x - 1) (x + 1) ×ˢ Finset.Icc (y - 1) (y + 1)).erase (x, y) := by
    intro p hp
    rw [liveNeighbourCells_eq, Finset.mem_filter] at hp
    rw [Finset.mem_erase]
    refine ⟨fun h => hp.2.2.2.1 ?_, hp.1⟩
    rw [h]
    exact ⟨rfl, rfl⟩
  refine (Finset.card_le_card h).trans ?_
  rw [Finset.card_erase_of_mem, Finset.card_product, Int.card_Icc, Int.card_Icc]
  · have e1 : (x + 1 + 1 - (x - 1)).toNat = 3 := by omega
    have e2 : (y + 1 + 1 - (y - 1)).toNat = 3 := by omega
    rw [e1, e2]
  · simp only [Finset.mem_product, Finset.mem_Icc]
    omega

/-! ## Patterns -/

theorem live_of_sameCells {g p : Grid} {size : Int} (hs : size ≤ GRID_SIZE)
    (hg : SameCells g p)
    (hp : ∀ i j, p i j = LIVE_CELL → 0 ≤ i ∧ i < size ∧ 0 ≤ j ∧ j < size) (i j : Int) :
    live g size i j = if p i j = LIVE_CELL then 1 else 0 := by
  unfold live
  by_cases hr : i ≥ 0 ∧ j ≥ 0 ∧ i < size ∧ j < size
  · rw [if_pos hr, hg i j ⟨hr.1, by omega, hr.2.1, by omega⟩]
  · rw [if_neg hr, if_neg]
    intro h
    have := hp i j h
    omega

/-- On a grid whose cells are those of `p`, with every living cell of `p` inside the
`size` x `size` grid, the clipped count is the unclipped count of `p`. -/
theorem neighbours_of_sameCells {g p : Grid} {size : Int} (hs : size ≤ GRID_SIZE)
    (hg : SameCells g p)
    (hp : ∀ i j, p i j = LIVE_CELL → 0 ≤ i ∧ i < size ∧ 0 ≤ j ∧ j < size)
    {x y : Int} (hxy : inBounds y x) :
    neighbours g size x y = freeCount p x y := by
  unfold neighbours liveRow freeCount
  simp only [live_of_sameCells hs hg hp, hg y x hxy]

theorem single_count (cx cy x y : Int) :
    freeCount (single cx cy) x y
      = if x = cx ∧ y = cy then 0 else if |x - cx| ≤ 1 ∧ |y - cy| ≤ 1 then 1 else 0 := by
  unfold freeCount single LIVE_CELL DEAD_CELL
  simp only [abs_le]
  have hu : x ≤ cx - 2 ∨ x = cx - 1 ∨ x = cx ∨ x = cx + 1 ∨ cx + 2 ≤ x := by omega
  have hv : y ≤ cy - 2 ∨ y = cy - 1 ∨ y = cy ∨ y = cy + 1 ∨ cy + 2 ≤ y := by omega
  rcases hu with h | h | h | h | h <;> rcases hv with h' | h' | h' | h' | h' <;>
    simp (disch := omega) only [if_pos, if_neg] <;> rfl

theorem blinkerH_next (cx cy x y : Int) :
    nextCell (freeCount (blinkerH cx cy) x y) (blinkerH cx cy y x) = blinkerV cx cy y x := by
  unfold nextCell freeCount blinkerH blinkerV LIVE_CELL DEAD_CELL REPRODUCE_NUM
    OVERPOPULATE_NUM ISOLATION_NUM
  have hu : x ≤ cx - 3 ∨ x = cx - 2 ∨ x = cx - 1 ∨ x = cx ∨ x = cx + 1 ∨ x = cx + 2
      ∨ cx + 3 ≤ x := by omega
  have hv : y ≤ cy - 2 ∨ y = cy - 1 ∨ y = cy ∨ y = cy + 1 ∨ cy + 2 ≤ y := by omega
  rcases hu with h | h | h | h | h | h | h <;> rcases hv with h' | h' | h' | h' | h' <;>
    simp (disch := omega) only [if_pos, if_neg] <;> rfl

theorem blinkerV_next (cx cy x y : Int) :
    nextCell (freeCount (blinkerV cx cy) x y) (blinkerV cx cy y x) = blinkerH cx cy y x := by
  unfold nextCell freeCount blinkerH blinkerV LIVE_CELL DEAD_CELL REPRODUCE_NUM
    OVERPOPULATE_NUM ISOLATION_NUM
  have hu : x ≤ cx - 2 ∨ x = cx - 1 ∨ x = cx ∨ x = cx + 1 ∨ cx + 2 ≤ x := by omega
  have hv : y ≤ cy - 3 ∨ y = cy - 2 ∨ y = cy - 1 ∨ y = cy ∨ y = cy + 1 ∨ y = cy + 2
      ∨ cy + 3 ≤ y := by omega
  rcases hu with h | h | h | h | h <;> rcases hv with h' | h' | h' | h' | h' | h' | h' <;>
    simp (disch := omega) only [if_pos, if_neg] <;> rfl

theorem block_count (x0 y0 x y : Int) :
    (block x0 y0 y x = LIVE_CELL → freeCount (block x0 y0) x y = 3) ∧
    (block x0 y0 y x = DEAD_CELL → freeCount (block x0 y0) x y ≠ 3) := by
  unfold freeCount block LIVE_CELL DEAD_CELL
  have hu : x ≤ x0 - 2 ∨ x = x0 - 1 ∨ x = x0 ∨ x = x0 + 1 ∨ x = x0 + 2 ∨ x0 + 3 ≤ x := by omega
  have hv : y ≤ y0 - 2 ∨ y = y0 - 1 ∨ y = y0 ∨ y = y0 + 1 ∨ y = y0 + 2 ∨ y0 + 3 ≤ y := by omega
  rcases hu with h | h | h | h | h | h <;> rcases hv with h' | h' | h' | h' | h' | h' <;>
    simp (disch := omega) only [if_pos, if_neg] <;> decide

theorem block_next (x0 y0 x y : Int) :
    nextCell (freeCount (block x0 y0) x y) (block x0 y0 y x) = block x0 y0 y x := by
  unfold nextCell freeCount block LIVE_CELL DEAD_CELL REPRODUCE_NUM
    OVERPOPULATE_NUM ISOLATION_NUM
  have hu : x ≤ x0 - 2 ∨ x = x0 - 1 ∨ x = x0 ∨ x = x0 + 1 ∨ x = x0 + 2 ∨ x0 + 3 ≤ x := by omega
  have hv : y ≤ y0 - 2 ∨ y = y0 - 1 ∨ y = y0 ∨ y = y0 + 1 ∨ y = y0 + 2 ∨ y0 + 3 ≤ y := by omega
  rcases hu with h | h | h | h | h | h <;> rcases hv with h' | h' | h' | h' | h' | h' <;>
    simp (disch := omega) only [if_pos, if_neg] <;> rfl

/-! ## Patterns under `step`, and the rule of `update_cell` -/

theorem stepGrid_of_sameCells {g p : Grid} (counts0 : Grid) (hg : SameCells g p)
    (hp : ∀ i j, p i j = LIVE_CELL → 0 ≤ i ∧ i < GRID_SIZE ∧ 0 ≤ j ∧ j < GRID_SIZE)
    {x y : Int} (hxy : inBounds y x) :
    stepGrid counts0 g GRID_SIZE y x = nextCell (freeCount p x y) (p y x) := by
  rw [stepGrid_apply counts0 g hxy, neighbours_of_sameCells le_rfl hg hp hxy, hg y x hxy]

/-- Outside the array `step` changes nothing. -/
theorem stepGrid_outside (counts0 grid : Grid) (size : Int) {i j : Int} (h : ¬inBounds i j) :
    stepGrid counts0 grid size i j = grid i j := by
  unfold inBounds at h
  unfold stepGrid mapBlock
  rw [if_neg h]

theorem blinker_live_inside (vertical : Bool) {cx cy : Int}
    (hcx : 1 ≤ cx ∧ cx ≤ GRID_SIZE - 2) (hcy : 1 ≤ cy ∧ cy ≤ GRID_SIZE - 2) (i j : Int)
    (h : blinker vertical cx cy i j = LIVE_CELL) :
    0 ≤ i ∧ i < GRID_SIZE ∧ 0 ≤ j ∧ j < GRID_SIZE := by
  unfold GRID_SIZE at *
  cases vertical
  · simp only [blinker, blinkerH, Bool.false_eq_true, if_false] at h
    by_cases hc : i = cy ∧ cx - 1 ≤ j ∧ j ≤ cx + 1
    · omega
    · rw [if_neg hc] at h
      exact absurd h (by decide)
  · simp only [blinker, blinkerV, if_true] at h
    by_cases hc : j = cx ∧ cy - 1 ≤ i ∧ i ≤ cy + 1
    · omega
    · rw [if_neg hc] at h
      exact absurd h (by decide)

theorem blinker_next (vertical : Bool) (cx cy x y : Int) :
    nextCell (freeCount (blinker vertical cx cy) x y) (blinker vertical cx cy y x)
      = blinker (!vertical) cx cy y x := by
  cases vertical
  · exact blinkerH_next cx cy x y
  · exact blinkerV_next cx cy x y

theorem block_live_inside {x0 y0 : Int}
    (hx0 : 0 ≤ x0 ∧ x0 ≤ GRID_SIZE - 2) (hy0 : 0 ≤ y0 ∧ y0 ≤ GRID_SIZE - 2) (i j : Int)
    (h : block x0 y0 i j = LIVE_CELL) :
    0 ≤ i ∧ i < GRID_SIZE ∧ 0 ≤ j ∧ j < GRID_SIZE := by
  unfold GRID_SIZE at *
  unfold block at h
  by_cases hc : (y0 ≤ i ∧ i ≤ y0 + 1) ∧ x0 ≤ j ∧ j ≤ x0 + 1
  · omega
  · rw [if_neg hc] at h
    exact absurd h (by decide)

theorem single_live_inside {cx cy : Int}
    (hcx : 1 ≤ cx ∧ cx ≤ GRID_SIZE - 2) (hcy : 1 ≤ cy ∧ cy ≤ GRID_SIZE - 2) (i j : Int)
    (h : single cx cy i j = LIVE_CELL) :
    0 ≤ i ∧ i < GRID_SIZE ∧ 0 ≤ j ∧ j < GRID_SIZE := by
  unfold GRID_SIZE at *
  unfold single at h
  by_cases hc : i = cy ∧ j = cx
  · omega
  · rw [if_neg hc] at h
    exact absurd h (by decide)

theorem nextCell_eq_fourRule (v : Int) (n : Nat) (hv : v = DEAD_CELL ∨ v = LIVE_CELL) :
    nextCell (n : Int) v = fourRule v n := by
  unfold nextCell fourRule REPRODUCE_NUM OVERPOPULATE_NUM ISOLATION_NUM
  rcases hv with h | h <;> subst h <;> simp only [LIVE_CELL, DEAD_CELL] <;>
    split_ifs <;> first | rfl | omega

theorem nextCell_live_iff (v : Int) (n : Nat) (hv : v = DEAD_CELL ∨ v = LIVE_CELL) :
    nextCell (n : Int) v = LIVE_CELL ↔ n = 3 ∨ (v = LIVE_CELL ∧ n = 2) := by
  unfold nextCell REPRODUCE_NUM OVERPOPULATE_NUM ISOLATION_NUM
  rcases hv with h | h <;> subst h <;> unfold LIVE_CELL DEAD_CELL <;>
    split_ifs <;> constructor <;> intro h' <;> omega

/-! ## Event handling, pixel division, agreeing grids and border cells -/

theorem tdiv_cell (p : Int) :
    Int.tdiv p CELL_SIZE = if 0 ≤ p then p / 38 else -((-p) / 38) := by
  have hc : CELL_SIZE = 38 := by decide
  rw [hc]
  split_ifs with h
  · exact Int.tdiv_eq_ediv h (by decide)
  · have h' : (0 : Int) ≤ -p := by omega
    have e := Int.neg_tdiv (-p) 38
    rw [neg_neg] at e
    rw [e, Int.tdiv_eq_ediv h' (by decide)]

theorem tdiv_cell_in_range (p : Int) :
    (0 ≤ Int.tdiv p CELL_SIZE ∧ Int.tdiv p CELL_SIZE < GRID_SIZE)
      ↔ (-CELL_SIZE < p ∧ p < GRID_SIZE * CELL_SIZE) := by
  have hc : CELL_SIZE = 38 := by decide
  rw [tdiv_cell, hc]
  unfold GRID_SIZE
  split_ifs with h <;> omega

theorem set_cell_in_range_eq (grid : Grid) {size x y : Int} (val : Int)
    (hx : 0 ≤ x ∧ x < size) (hy : 0 ≤ y ∧ y < size) (hs : size ≤ GRID_SIZE) :
    set_cell grid size x y val = some (store grid y x val) := by
  unfold set_cell
  rw [if_pos ⟨hx.1, hx.2, hy.1, hy.2⟩,
    writeCell_of_inBounds grid val ⟨hy.1, by omega, hx.1, by omega⟩]

theorem cellSet_store (s : Shell) (cx cy v : Int) :
    CellSet s { s with grid := store s.grid cy cx v } cx cy v := by
  refine ⟨?_, ?_, rfl, rfl⟩
  · show store s.grid cy cx v cy cx = v
    unfold store
    rw [if_pos ⟨rfl, rfl⟩]
  · intro i j hij
    show store s.grid cy cx v i j = s.grid i j
    unfold store
    rw [if_neg hij]

theorem handle_event_buttonDown (s : Shell) (size : Int) (button : Nat) (x y : Int) :
    handle_event size s (Event.mouseButtonDown button x y)
      = (set_cell s.grid size (Int.tdiv x CELL_SIZE) (Int.tdiv y CELL_SIZE)
          (if button = SDL_BUTTON_LEFT then LIVE_CELL else DEAD_CELL)).bind
          (fun g => some { s with grid := g }) := rfl

theorem handle_event_motion_held (s : Shell) (size : Int) {state : Nat} (x y : Int)
    (h : state &&& (SDL_BUTTON_LMASK ||| SDL_BUTTON_RMASK) ≠ 0) :
    handle_event size s (Event.mouseMotion state x y)
      = (set_cell s.grid size (Int.tdiv x CELL_SIZE) (Int.tdiv y CELL_SIZE)
          (if state &&& SDL_BUTTON_LMASK ≠ 0 then LIVE_CELL else DEAD_CELL)).bind
          (fun g => some { s with grid := g }) := by
  show (if state &&& (SDL_BUTTON_LMASK ||| SDL_BUTTON_RMASK) ≠ 0 then _ else _) = _
  rw [if_pos h]
  rfl

theorem handle_event_motion_free (s : Shell) (size : Int) {state : Nat} (x y : Int)
    (h : state &&& (SDL_BUTTON_LMASK ||| SDL_BUTTON_RMASK) = 0) :
    handle_event size s (Event.mouseMotion state x y) = some s := by
  show (if state &&& (SDL_BUTTON_LMASK ||| SDL_BUTTON_RMASK) ≠ 0 then _ else _) = _
  rw [if_neg (not_not.2 h)]

theorem handle_event_keyDown (s : Shell) (size sym : Int) :
    handle_event size s (Event.keyDown sym)
      = if sym = SDLK_SPACE then some { s with animating := !s.animating }
        else if sym = SDLK_c then
          (init_grid s.grid size).bind
            (fun g => some { grid := g, animating := false, user_quit := s.user_quit })
        else some s := rfl

theorem live_congr {g1 g2 : Grid} (h : SameCells g1 g2) {size : Int} (hs : size ≤ GRID_SIZE)
    (i j : Int) : live g1 size i j = live g2 size i j := by
  unfold live
  by_cases hr : i ≥ 0 ∧ j ≥ 0 ∧ i < size ∧ j < size
  · rw [if_pos hr, if_pos hr, h i j ⟨hr.1, by omega, hr.2.1, by omega⟩]
  · rw [if_neg hr, if_neg hr]

/-- The neighbour count of a cell of the array reads cells of the array only. -/
theorem neighbours_congr {g1 g2 : Grid} (h : SameCells g1 g2) {size : Int}
    (hs : size ≤ GRID_SIZE) {x y : Int} (hxy : inBounds y x) :
    neighbours g1 size x y = neighbours g2 size x y := by
  unfold neighbours liveRow
  simp only [live_congr h hs, h y x hxy]

/-- A cell of the grid after `step(grid, size)`: inside the `size` x `size` grid its
count is the neighbour count, outside it is whatever `counts` held on entry. -/
theorem stepGrid_apply_sub (counts0 grid : Grid) (size : Int) {x y : Int} (h : inBounds y x) :
    stepGrid counts0 grid size y x
      = nextCell (if 0 ≤ y ∧ y < size ∧ 0 ≤ x ∧ x < size then neighbours grid size x y
                  else counts0 y x) (grid y x) := by
  have h' := h
  unfold inBounds at h'
  simp only [stepGrid, countsOf, mapBlock, if_pos h']

theorem live_range (grid : Grid) (size i j : Int) :
    0 ≤ live grid size i j ∧ live grid size i j ≤ 1 := by
  unfold live
  split_ifs <;> omega

/-- Whatever the cells hold, the closed form of the count lies in `[-1, 8]`. -/
theorem neighbours_range (grid : Grid) (size x y : Int) :
    -1 ≤ neighbours grid size x y ∧ neighbours grid size x y ≤ 8 := by
  have hc : live grid size y x ≤ if grid y x ≠ DEAD_CELL then 1 else 0 := by
    unfold live LIVE_CELL DEAD_CELL
    split_ifs <;> omega
  have h1 := live_range grid size (y - 1) (x - 1)
  have h2 := live_range grid size (y - 1) x
  have h3 := live_range grid size (y - 1) (x + 1)
  have h4 := live_range grid size y (x - 1)
  have h5 := live_range grid size y x
  have h6 := live_range grid size y (x + 1)
  have h7 := live_range grid size (y + 1) (x - 1)
  have h8 := live_range grid size (y + 1) x
  have h9 := live_range grid size (y + 1) (x + 1)
  have hd : (0 : Int) ≤ (if grid y x ≠ DEAD_CELL then 1 else 0) ∧
      (if grid y x ≠ DEAD_CELL then (1 : Int) else 0) ≤ 1 := by
    split_ifs <;> omega
  unfold neighbours liveRow
  constructor <;> omega

theorem liveNeighbourCells_eq_filter (grid : Grid) (size x y : Int) :
    liveNeighbourCells grid size x y
      = (gridNeighbours size x y).filter (fun p => grid p.2 p.1 = LIVE_CELL) := by
  unfold liveNeighbourCells gridNeighbours
  rw [Finset.filter_filter]
  refine Finset.filter_congr (fun p _ => ?_)
  simp only [and_assoc]

theorem gridNeighbours_eq (size x y : Int) :
    gridNeighbours size x y = liveNeighbourCells (fun _ _ => LIVE_CELL) size x y := by
  rw [liveNeighbourCells_eq_filter]
  exact (Finset.filter_true_of_mem (fun _ _ => rfl)).symm

theorem live_allLive (size i j : Int) :
    live (fun _ _ => LIVE_CELL) size i j
      = if i ≥ 0 ∧ j ≥ 0 ∧ i < size ∧ j < size then 1 else 0 := by
  unfold live
  rw [if_pos rfl]

/-- The number of in-grid neighbours, cell by cell of the 3x3 block. -/
theorem card_gridNeighbours (size x y : Int) :
    ((gridNeighbours size x y).card : Int)
      = (live (fun _ _ => LIVE_CELL) size (y - 1) (x - 1)
          + live (fun _ _ => LIVE_CELL) size y (x - 1)
          + live (fun _ _ => LIVE_CELL) size (y + 1) (x - 1))
        + (live (fun _ _ => LIVE_CELL) size (y - 1) x + 0
          + live (fun _ _ => LIVE_CELL) size (y + 1) x)
        + (live (fun _ _ => LIVE_CELL) size (y - 1) (x + 1)
          + live (fun _ _ => LIVE_CELL) size y (x + 1)
          + live (fun _ _ => LIVE_CELL) size (y + 1) (x + 1)) := by
  rw [gridNeighbours_eq, card_liveNeighbourCells]
  simp only [sum_three]
  rw [asNeighbour_centre,
    asNeighbour_off _ size x y (x - 1) (y - 1) (by omega),
    asNeighbour_off _ size x y (x - 1) y (by omega),
    asNeighbour_off _ size x y (x - 1) (y + 1) (by omega),
    asNeighbour_off _ size x y x (y - 1) (by omega),
    asNeighbour_off _ size x y x (y + 1) (by omega),
    asNeighbour_off _ size x y (x + 1) (y - 1) (by omega),
    asNeighbour_off _ size x y (x + 1) y (by omega),
    asNeighbour_off _ size x y (x + 1) (y + 1) (by omega)]

theorem card_gridNeighbours_corner {size x y : Int} (hs : 2 ≤ size)
    (h : isCorner size x y) : (gridNeighbours size x y).card = 3 := by
  have e : ((gridNeighbours size x y).card : Int) = 3 := by
    rw [card_gridNeighbours]
    simp only [live_allLive]
    obtain ⟨hx | hx, hy | hy⟩ := h <;>
      simp (disch := omega) only [if_pos, if_neg] <;> rfl
  exact_mod_cast e

theorem card_gridNeighbours_edge {size x y : Int}
    (h : isEdge size x y) : (gridNeighbours size x y).card = 5 := by
  have e : ((gridNeighbours size x y).card : Int) = 5 := by
    rw [card_gridNeighbours]
    simp only [live_allLive]
    obtain ⟨hx | hx, hy1, hy2⟩ | ⟨hy | hy, hx1, hx2⟩ := h <;>
      simp (disch := omega) only [if_pos, if_neg] <;> rfl
  exact_mod_cast e

/-! ## The contracts -/

/-- C1: for a cell `(x, y)` of the 21x21 grid, `step` succeeds, and the cell's value
afterwards is fixed by `c = count_living_neighbours` of the grid as it was before
the step: `LIVE_CELL` when `c = 3`, `DEAD_CELL` when `c > 3` or `c < 2`, and the old
value `grid[y][x]` when `c = 2`. -/
theorem step_cell_from_old_count (counts0 grid : Grid) (x y : Int)
    (hx : 0 ≤ x ∧ x < GRID_SIZE) (hy : 0 ≤ y ∧ y < GRID_SIZE) :
    ∃ g' c, step counts0 grid GRID_SIZE = some g' ∧
      count_living_neighbours grid GRID_SIZE x y = some c ∧
      (c = 3 → g' y x = LIVE_CELL) ∧
      (c > 3 ∨ c < 2 → g' y x = DEAD_CELL) ∧
      (c = 2 → g' y x = grid y x) := by
  have hb : inBounds y x := ⟨hy.1, hy.2, hx.1, hx.2⟩
  refine ⟨stepGrid counts0 grid GRID_SIZE, neighbours grid GRID_SIZE x y,
    step_eq counts0 grid le_rfl, count_living_neighbours_eq grid le_rfl hb, ?_, ?_, ?_⟩
  · intro hc
    rw [stepGrid_apply counts0 grid hb, hc]
    rfl
  · intro hc
    rw [stepGrid_apply counts0 grid hb]
    unfold nextCell REPRODUCE_NUM OVERPOPULATE_NUM ISOLATION_NUM
    rw [if_neg (by omega), if_pos hc]
  · intro hc
    rw [stepGrid_apply counts0 grid hb, hc]
    rfl

theorem step_cell_from_old_count_witness :
    ((0 : Int) ≤ 1 ∧ (1 : Int) < GRID_SIZE) ∧
    ∃ g' c, step (fun _ _ => 7) (fun _ _ => LIVE_CELL) GRID_SIZE = some g' ∧
      count_living_neighbours (fun _ _ => LIVE_CELL) GRID_SIZE 1 1 = some c ∧
      (c = 3 → g' 1 1 = LIVE_CELL) ∧
      (c > 3 ∨ c < 2 → g' 1 1 = DEAD_CELL) ∧
      (c = 2 → g' 1 1 = (fun _ _ => LIVE_CELL : Grid) 1 1) :=
  ⟨by decide, step_cell_from_old_count (fun _ _ => 7) (fun _ _ => LIVE_CELL) 1 1
    (by decide) (by decide)⟩

/-- C2: on a grid of zeros and ones, with `0 < size ≤ GRID_SIZE` and `(x, y)` inside
the `size` x `size` grid, `count_living_neighbours` returns the number of cells
`(j, i)` with `|j - x| ≤ 1`, `|i - y| ≤ 1`, `(j, i) ≠ (x, y)`, `0 ≤ j, i < size` and
`grid[i][j] = LIVE_CELL` (nothing wraps around), and that number is in `[0, 8]`. -/
theorem count_living_neighbours_spec (grid : Grid) (size x y : Int) (hg : Binary grid)
    (hs : 0 < size ∧ size ≤ GRID_SIZE) (hx : 0 ≤ x ∧ x < size) (hy : 0 ≤ y ∧ y < size) :
    count_living_neighbours grid size x y
      = some ((liveNeighbourCells grid size x y).card : Int) ∧
    (0 : Int) ≤ ((liveNeighbourCells grid size x y).card : Int) ∧
    ((liveNeighbourCells grid size x y).card : Int) ≤ 8 := by
  have hb : inBounds y x := ⟨hy.1, by omega, hx.1, by omega⟩
  refine ⟨?_, Int.natCast_nonneg _, ?_⟩
  · rw [count_living_neighbours_eq grid hs.2 hb, neighbours_eq_card grid size x y hx hy (hg y x hb)]
  · exact_mod_cast card_liveNeighbourCells_le grid size x y

theorem count_living_neighbours_spec_witness :
    ((0 : Int) < 21 ∧ (21 : Int) ≤ GRID_SIZE) ∧ ((0 : Int) ≤ 0 ∧ (0 : Int) < 21) ∧
    ((0 : Int) ≤ 20 ∧ (20 : Int) < 21) ∧
    count_living_neighbours (fun _ _ => LIVE_CELL) 21 0 20
      = some ((liveNeighbourCells (fun _ _ => LIVE_CELL) 21 0 20).card : Int) ∧
    (0 : Int) ≤ ((liveNeighbourCells (fun _ _ => LIVE_CELL) 21 0 20).card : Int) ∧
    ((liveNeighbourCells (fun _ _ => LIVE_CELL) 21 0 20).card : Int) ≤ 8 :=
  ⟨by decide, by decide, by decide,
    count_living_neighbours_spec (fun _ _ => LIVE_CELL) 21 0 20 (fun _ _ _ => Or.inr rfl)
      (by decide) (by decide) (by decide)⟩

/-- C3: on a 21x21 grid of zeros and ones `step` computes the textbook rule B3/S23:
afterwards cell `(x, y)` is alive exactly when it had three living in-grid
neighbours before, or was alive and had two; it is dead otherwise; and its value is
the one the four-rule formulation gives. -/
theorem step_textbook_rule (counts0 grid : Grid) (x y : Int) (hg : Binary grid)
    (hx : 0 ≤ x ∧ x < GRID_SIZE) (hy : 0 ≤ y ∧ y < GRID_SIZE) :
    ∃ g', step counts0 grid GRID_SIZE = some g' ∧
      (g' y x = LIVE_CELL ↔
        (liveNeighbourCells grid GRID_SIZE x y).card = 3 ∨
        (grid y x = LIVE_CELL ∧ (liveNeighbourCells grid GRID_SIZE x y).card = 2)) ∧
      (g' y x = LIVE_CELL ∨ g' y x = DEAD_CELL) ∧
      g' y x = fourRule (grid y x) (liveNeighbourCells grid GRID_SIZE x y).card := by
  have hb : inBounds y x := ⟨hy.1, hy.2, hx.1, hx.2⟩
  have hv := hg y x hb
  have hn := neighbours_eq_card grid GRID_SIZE x y hx hy hv
  refine ⟨stepGrid counts0 grid GRID_SIZE, step_eq counts0 grid le_rfl, ?_, ?_, ?_⟩
  · rw [stepGrid_apply counts0 grid hb, hn]
    exact nextCell_live_iff _ _ hv
  · rw [stepGrid_apply counts0 grid hb]
    exact (nextCell_binary _ _ hv).symm
  · rw [stepGrid_apply counts0 grid hb, hn]
    exact nextCell_eq_fourRule _ _ hv

theorem step_textbook_rule_witness :
    ((0 : Int) ≤ 5 ∧ (5 : Int) < GRID_SIZE) ∧ ((0 : Int) ≤ 4 ∧ (4 : Int) < GRID_SIZE) ∧
    ∃ g', step (fun _ _ => 0) (blinkerH 5 5) GRID_SIZE = some g' ∧
      (g' 4 5 = LIVE_CELL ↔
        (liveNeighbourCells (blinkerH 5 5) GRID_SIZE 5 4).card = 3 ∨
        (blinkerH 5 5 4 5 = LIVE_CELL ∧ (liveNeighbourCells (blinkerH 5 5) GRID_SIZE 5 4).card = 2)) ∧
      (g' 4 5 = LIVE_CELL ∨ g' 4 5 = DEAD_CELL) ∧
      g' 4 5 = fourRule (blinkerH 5 5 4 5) (liveNeighbourCells (blinkerH 5 5) GRID_SIZE 5 4).card :=
  ⟨by decide, by decide,
    step_textbook_rule (fun _ _ => 0) (blinkerH 5 5) 5 4
      (fun i j _ => by unfold blinkerH; split_ifs; exact Or.inr rfl; exact Or.inl rfl)
      (by decide) (by decide)⟩

/-- C4: with `x` or `y` outside `[0, size)`, `set_cell` returns normally and the grid
it leaves is the grid it was given, whatever the grid, `size` and `val`. -/
theorem set_cell_out_of_range (grid : Grid) (size x y val : Int)
    (h : x < 0 ∨ x ≥ size ∨ y < 0 ∨ y ≥ size) :
    set_cell grid size x y val = some grid := by
  unfold set_cell
  rw [if_neg (by omega)]

theorem set_cell_out_of_range_witness :
    ((21 : Int) < 0 ∨ (21 : Int) ≥ GRID_SIZE ∨ (3 : Int) < 0 ∨ (3 : Int) ≥ GRID_SIZE) ∧
    set_cell (fun _ _ => DEAD_CELL) GRID_SIZE 21 3 LIVE_CELL = some (fun _ _ => DEAD_CELL) :=
  ⟨by decide, set_cell_out_of_range (fun _ _ => DEAD_CELL) GRID_SIZE 21 3 LIVE_CELL (by decide)⟩

/-- C5: with `0 ≤ x, y < size ≤ GRID_SIZE`, `set_cell` returns normally; afterwards
the cell at column `x`, row `y` holds `val` and every other cell holds the value it
held before. -/
theorem set_cell_in_range (grid : Grid) (size x y val : Int)
    (hx : 0 ≤ x ∧ x < size) (hy : 0 ≤ y ∧ y < size) (hs : size ≤ GRID_SIZE) :
    ∃ g', set_cell grid size x y val = some g' ∧ g' y x = val ∧
      ∀ i j, ¬(i = y ∧ j = x) → g' i j = grid i j := by
  have hb : inBounds y x := ⟨hy.1, by omega, hx.1, by omega⟩
  refine ⟨store grid y x val, ?_, ?_, ?_⟩
  · unfold set_cell
    rw [if_pos ⟨hx.1, hx.2, hy.1, hy.2⟩, writeCell_of_inBounds grid val hb]
  · unfold store
    rw [if_pos ⟨rfl, rfl⟩]
  · intro i j hij
    unfold store
    rw [if_neg hij]

theorem set_cell_in_range_witness :
    ((0 : Int) ≤ 4 ∧ (4 : Int) < 10) ∧ ((0 : Int) ≤ 9 ∧ (9 : Int) < 10) ∧ (10 : Int) ≤ GRID_SIZE ∧
    ∃ g', set_cell (fun _ _ => DEAD_CELL) 10 4 9 LIVE_CELL = some g' ∧ g' 9 4 = LIVE_CELL ∧
      ∀ i j, ¬(i = 9 ∧ j = 4) → g' i j = (fun _ _ => DEAD_CELL : Grid) i j :=
  ⟨by decide, by decide, by decide,
    set_cell_in_range (fun _ _ => DEAD_CELL) 10 4 9 LIVE_CELL (by decide) (by decide) (by decide)⟩

/-- C6: whatever the grid holds before, `init_grid(grid, GRID_SIZE)` returns normally
and afterwards each of the `GRID_SIZE` x `GRID_SIZE` cells is `DEAD_CELL`. -/
theorem init_grid_all_dead (grid : Grid) :
    ∃ g', init_grid grid GRID_SIZE = some g' ∧ ∀ i j, inBounds i j → g' i j = DEAD_CELL := by
  refine ⟨_, init_grid_eq grid le_rfl, ?_⟩
  intro i j hij
  unfold inBounds at hij
  unfold mapBlock
  rw [if_pos hij]

/-- C7: a blinker (three living cells in a row, or in a column) centred at an interior
cell of an otherwise dead 21x21 grid: one `step` leaves exactly the perpendicular
blinker with the same centre, and a second `step` gives back the original grid. -/
theorem blinker_period_two (counts0 counts1 grid : Grid) (vertical : Bool) (cx cy : Int)
    (hcx : 1 ≤ cx ∧ cx ≤ GRID_SIZE - 2) (hcy : 1 ≤ cy ∧ cy ≤ GRID_SIZE - 2)
    (hg : SameCells grid (blinker vertical cx cy)) :
    ∃ g1, step counts0 grid GRID_SIZE = some g1 ∧
      SameCells g1 (blinker (!vertical) cx cy) ∧
      step counts1 g1 GRID_SIZE = some grid := by
  have h1 : SameCells (stepGrid counts0 grid GRID_SIZE) (blinker (!vertical) cx cy) := by
    intro i j hij
    rw [stepGrid_of_sameCells counts0 hg (blinker_live_inside vertical hcx hcy) hij,
      blinker_next]
  refine ⟨stepGrid counts0 grid GRID_SIZE, step_eq counts0 grid le_rfl, h1, ?_⟩
  rw [step_eq counts1 _ le_rfl]
  congr 1
  funext i j
  by_cases hij : inBounds i j
  · rw [stepGrid_of_sameCells counts1 h1 (blinker_live_inside (!vertical) hcx hcy) hij,
      blinker_next, Bool.not_not, hg i j hij]
  · rw [stepGrid_outside _ _ _ hij, stepGrid_outside _ _ _ hij]

theorem blinker_period_two_witness :
    ((1 : Int) ≤ 1 ∧ (1 : Int) ≤ GRID_SIZE - 2) ∧ ((1 : Int) ≤ 19 ∧ (19 : Int) ≤ GRID_SIZE - 2) ∧
    ∃ g1, step (fun _ _ => 0) (blinker false 1 19) GRID_SIZE = some g1 ∧
      SameCells g1 (blinker (!false) 1 19) ∧
      step (fun _ _ => 0) g1 GRID_SIZE = some (blinker false 1 19) :=
  ⟨by decide, by decide,
    blinker_period_two (fun _ _ => 0) (fun _ _ => 0) (blinker false 1 19) false 1 19
      (by decide) (by decide) (fun _ _ _ => rfl)⟩

/-- C8: a 2x2 block of living cells anywhere in an otherwise dead 21x21 grid, edges and
corners included: `step` returns the grid unchanged; every block cell has exactly 3
living neighbours and no dead cell has exactly 3. -/
theorem block_still_life (counts0 grid : Grid) (x0 y0 : Int)
    (hx0 : 0 ≤ x0 ∧ x0 ≤ GRID_SIZE - 2) (hy0 : 0 ≤ y0 ∧ y0 ≤ GRID_SIZE - 2)
    (hg : SameCells grid (block x0 y0)) :
    step counts0 grid GRID_SIZE = some grid ∧
    ∀ x y, inBounds y x → ∃ c, count_living_neighbours grid GRID_SIZE x y = some c ∧
      (grid y x = LIVE_CELL → c = 3) ∧ (grid y x = DEAD_CELL → c ≠ 3) := by
  constructor
  · rw [step_eq counts0 _ le_rfl]
    congr 1
    funext i j
    by_cases hij : inBounds i j
    · rw [stepGrid_of_sameCells counts0 hg (block_live_inside hx0 hy0) hij, block_next,
        hg i j hij]
    · exact stepGrid_outside _ _ _ hij
  · intro x y hxy
    refine ⟨freeCount (block x0 y0) x y, ?_, ?_⟩
    · rw [count_living_neighbours_eq grid le_rfl hxy,
        neighbours_of_sameCells le_rfl hg (block_live_inside hx0 hy0) hxy]
    · rw [hg y x hxy]
      exact block_count x0 y0 x y

theorem block_still_life_witness :
    ((0 : Int) ≤ 0 ∧ (0 : Int) ≤ GRID_SIZE - 2) ∧ ((0 : Int) ≤ 19 ∧ (19 : Int) ≤ GRID_SIZE - 2) ∧
    step (fun _ _ => 0) (block 0 19) GRID_SIZE = some (block 0 19) ∧
    ∀ x y, inBounds y x → ∃ c, count_living_neighbours (block 0 19) GRID_SIZE x y = some c ∧
      (block 0 19 y x = LIVE_CELL → c = 3) ∧ (block 0 19 y x = DEAD_CELL → c ≠ 3) :=
  ⟨by decide, by decide,
    block_still_life (fun _ _ => 0) (block 0 19) 0 19 (by decide) (by decide) (fun _ _ _ => rfl)⟩

/-- C9: "every cell is `DEAD_CELL` or `LIVE_CELL`" is an invariant of the grid engine:
it holds after `init_grid`, `step` preserves it, and so does `set_cell` with `val`
one of `LIVE_CELL`, `DEAD_CELL`, for coordinates in range or not.  Each of the
three calls returns normally. -/
theorem binary_invariant :
    (∀ grid : Grid, ∃ g', init_grid grid GRID_SIZE = some g' ∧ Binary g') ∧
    (∀ counts0 grid : Grid, ∀ size : Int, size ≤ GRID_SIZE → Binary grid →
      ∃ g', step counts0 grid size = some g' ∧ Binary g') ∧
    (∀ (grid : Grid) (size x y val : Int), size ≤ GRID_SIZE → Binary grid →
      val = LIVE_CELL ∨ val = DEAD_CELL →
      ∃ g', set_cell grid size x y val = some g' ∧ Binary g') := by
  refine ⟨?_, ?_, ?_⟩
  · intro grid
    refine ⟨_, init_grid_eq grid le_rfl, ?_⟩
    intro i j hij
    unfold inBounds at hij
    unfold mapBlock
    rw [if_pos hij]
    exact Or.inl rfl
  · intro counts0 grid size hs hg
    exact ⟨_, step_eq counts0 grid hs, stepGrid_binary counts0 grid size hg⟩
  · intro grid size x y val hs hg hval
    unfold set_cell
    by_cases hr : x ≥ 0 ∧ x < size ∧ y ≥ 0 ∧ y < size
    · rw [if_pos hr, writeCell_of_inBounds grid val ⟨hr.2.2.1, by omega, hr.1, by omega⟩]
      refine ⟨_, rfl, ?_⟩
      intro i j hij
      unfold store
      split_ifs
      · exact hval.symm
      · exact hg i j hij
    · rw [if_neg hr]
      exact ⟨grid, rfl, hg⟩

/-- C10: a 21x21 grid whose only living cell is at a non-edge position `(cx, cy)`:
`count_living_neighbours` returns 0 at `(cx, cy)`, 1 at each of the 8 cells next to
it, and 0 at every other cell of the grid. -/
theorem single_cell_counts (grid : Grid) (cx cy x y : Int)
    (hcx : 1 ≤ cx ∧ cx ≤ GRID_SIZE - 2) (hcy : 1 ≤ cy ∧ cy ≤ GRID_SIZE - 2)
    (hg : SameCells grid (single cx cy))
    (hx : 0 ≤ x ∧ x < GRID_SIZE) (hy : 0 ≤ y ∧ y < GRID_SIZE) :
    count_living_neighbours grid GRID_SIZE x y
      = some (if x = cx ∧ y = cy then 0
              else if |x - cx| ≤ 1 ∧ |y - cy| ≤ 1 then 1 else 0) := by
  have hb : inBounds y x := ⟨hy.1, hy.2, hx.1, hx.2⟩
  rw [count_living_neighbours_eq grid le_rfl hb,
    neighbours_of_sameCells le_rfl hg (single_live_inside hcx hcy) hb, single_count]

theorem single_cell_counts_witness :
    ((1 : Int) ≤ 7 ∧ (7 : Int) ≤ GRID_SIZE - 2) ∧ ((1 : Int) ≤ 3 ∧ (3 : Int) ≤ GRID_SIZE - 2) ∧
    ((0 : Int) ≤ 8 ∧ (8 : Int) < GRID_SIZE) ∧ ((0 : Int) ≤ 2 ∧ (2 : Int) < GRID_SIZE) ∧
    count_living_neighbours (single 7 3) GRID_SIZE 8 2
      = some (if (8 : Int) = 7 ∧ (2 : Int) = 3 then 0
              else if |(8 : Int) - 7| ≤ 1 ∧ |(2 : Int) - 3| ≤ 1 then 1 else 0) :=
  ⟨by decide, by decide, by decide, by decide,
    single_cell_counts (single 7 3) 7 3 8 2 (by decide) (by decide) (fun _ _ _ => rfl)
      (by decide) (by decide)⟩

/-- C11: on a grid of zeros and ones, `count_living_neighbours` at a cell of the
`size` x `size` grid is the number of living cells among its in-grid neighbours; a
corner cell has exactly 3 in-grid neighbours, so its count is at most 3, and an edge
cell that is not a corner has exactly 5, so its count is at most 5. -/
theorem border_counts (grid : Grid) (size x y : Int) (hg : Binary grid)
    (hs : 2 ≤ size ∧ size ≤ GRID_SIZE) (hx : 0 ≤ x ∧ x < size) (hy : 0 ≤ y ∧ y < size) :
    ∃ c : Nat, count_living_neighbours grid size x y = some (c : Int) ∧
      c = ((gridNeighbours size x y).filter (fun p => grid p.2 p.1 = LIVE_CELL)).card ∧
      (isCorner size x y → (gridNeighbours size x y).card = 3 ∧ c ≤ 3) ∧
      (isEdge size x y → (gridNeighbours size x y).card = 5 ∧ c ≤ 5) := by
  have hb : inBounds y x := ⟨hy.1, by omega, hx.1, by omega⟩
  refine ⟨_, ?_, rfl, ?_, ?_⟩
  · rw [count_living_neighbours_eq grid hs.2 hb,
      neighbours_eq_card grid size x y hx hy (hg y x hb), liveNeighbourCells_eq_filter]
  · intro h
    have hc := card_gridNeighbours_corner hs.1 h
    exact ⟨hc, hc ▸ Finset.card_filter_le _ _⟩
  · intro h
    have hc := card_gridNeighbours_edge h
    exact ⟨hc, hc ▸ Finset.card_filter_le _ _⟩

theorem border_counts_witness :
    ((2 : Int) ≤ GRID_SIZE ∧ GRID_SIZE ≤ GRID_SIZE) ∧ ((0 : Int) ≤ 20 ∧ (20 : Int) < GRID_SIZE) ∧
    ((0 : Int) ≤ 0 ∧ (0 : Int) < GRID_SIZE) ∧
    ∃ c : Nat, count_living_neighbours (fun _ _ => LIVE_CELL) GRID_SIZE 20 0 = some (c : Int) ∧
      c = ((gridNeighbours GRID_SIZE 20 0).filter
        (fun p => (fun _ _ => LIVE_CELL : Grid) p.2 p.1 = LIVE_CELL)).card ∧
      (isCorner GRID_SIZE 20 0 → (gridNeighbours GRID_SIZE 20 0).card = 3 ∧ c ≤ 3) ∧
      (isEdge GRID_SIZE 20 0 → (gridNeighbours GRID_SIZE 20 0).card = 5 ∧ c ≤ 5) :=
  ⟨by decide, by decide, by decide,
    border_counts (fun _ _ => LIVE_CELL) GRID_SIZE 20 0 (fun _ _ _ => Or.inr rfl)
      (by decide) (by decide) (by decide)⟩


/-- C12, the claim as stated fails: on a mouse-motion event during which only the middle
button is held (a button is held, the left one is not) the hovered cell `(0, 0)` is not
set to `DEAD_CELL`; it keeps its value `LIVE_CELL`. -/
theorem motion_middle_button_ignored :
    SDL_BUTTON_MMASK ≠ 0 ∧ SDL_BUTTON_MMASK &&& SDL_BUTTON_LMASK = 0 ∧
    ∃ s', handle_event GRID_SIZE ⟨single 0 0, false, false⟩
        (Event.mouseMotion SDL_BUTTON_MMASK 0 0) = some s' ∧
      s'.grid (Int.tdiv 0 CELL_SIZE) (Int.tdiv 0 CELL_SIZE) = LIVE_CELL ∧
      s'.grid (Int.tdiv 0 CELL_SIZE) (Int.tdiv 0 CELL_SIZE) ≠ DEAD_CELL :=
  ⟨by decide, by decide, ⟨single 0 0, false, false⟩, rfl, by decide, by decide⟩

/-- C12, amended: for a pixel `(px, py)` whose cell `(px / CELL_SIZE, py / CELL_SIZE)` is
in the grid, a mouse-button-down event sets that cell to `LIVE_CELL` for the left button
and to `DEAD_CELL` for any other button; a mouse-motion event with the left or the right
button held sets it to `LIVE_CELL` when the left button is held and to `DEAD_CELL`
otherwise; a mouse-motion event with neither of the two held changes nothing.  A cell
that is set is the only thing that changes. -/
theorem mouse_events (s : Shell) (px py : Int) (button state : Nat)
    (hx : 0 ≤ Int.tdiv px CELL_SIZE ∧ Int.tdiv px CELL_SIZE < GRID_SIZE)
    (hy : 0 ≤ Int.tdiv py CELL_SIZE ∧ Int.tdiv py CELL_SIZE < GRID_SIZE) :
    (∃ s', handle_event GRID_SIZE s (Event.mouseButtonDown button px py) = some s' ∧
      CellSet s s' (Int.tdiv px CELL_SIZE) (Int.tdiv py CELL_SIZE)
        (if button = SDL_BUTTON_LEFT then LIVE_CELL else DEAD_CELL)) ∧
    (state &&& (SDL_BUTTON_LMASK ||| SDL_BUTTON_RMASK) ≠ 0 →
      ∃ s', handle_event GRID_SIZE s (Event.mouseMotion state px py) = some s' ∧
        CellSet s s' (Int.tdiv px CELL_SIZE) (Int.tdiv py CELL_SIZE)
          (if state &&& SDL_BUTTON_LMASK ≠ 0 then LIVE_CELL else DEAD_CELL)) ∧
    (state &&& (SDL_BUTTON_LMASK ||| SDL_BUTTON_RMASK) = 0 →
      handle_event GRID_SIZE s (Event.mouseMotion state px py) = some s) := by
  refine ⟨⟨_, ?_, cellSet_store s _ _ _⟩, fun h => ⟨_, ?_, cellSet_store s _ _ _⟩,
    fun h => handle_event_motion_free s GRID_SIZE px py h⟩
  · rw [handle_event_buttonDown, set_cell_in_range_eq s.grid _ hx hy le_rfl]
    rfl
  · rw [handle_event_motion_held s GRID_SIZE px py h,
      set_cell_in_range_eq s.grid _ hx hy le_rfl]
    rfl

theorem mouse_events_witness :
    (0 ≤ Int.tdiv 100 CELL_SIZE ∧ Int.tdiv 100 CELL_SIZE < GRID_SIZE) ∧
    (0 ≤ Int.tdiv 797 CELL_SIZE ∧ Int.tdiv 797 CELL_SIZE < GRID_SIZE) ∧
    (∃ s', handle_event GRID_SIZE ⟨single 2 20, true, false⟩
        (Event.mouseButtonDown SDL_BUTTON_MIDDLE 100 797) = some s' ∧
      CellSet ⟨single 2 20, true, false⟩ s' (Int.tdiv 100 CELL_SIZE) (Int.tdiv 797 CELL_SIZE)
        (if SDL_BUTTON_MIDDLE = SDL_BUTTON_LEFT then LIVE_CELL else DEAD_CELL)) ∧
    (SDL_BUTTON_RMASK &&& (SDL_BUTTON_LMASK ||| SDL_BUTTON_RMASK) ≠ 0 →
      ∃ s', handle_event GRID_SIZE ⟨single 2 20, true, false⟩
          (Event.mouseMotion SDL_BUTTON_RMASK 100 797) = some s' ∧
        CellSet ⟨single 2 20, true, false⟩ s' (Int.tdiv 100 CELL_SIZE)
          (Int.tdiv 797 CELL_SIZE)
          (if SDL_BUTTON_RMASK &&& SDL_BUTTON_LMASK ≠ 0 then LIVE_CELL else DEAD_CELL)) ∧
    (SDL_BUTTON_RMASK &&& (SDL_BUTTON_LMASK ||| SDL_BUTTON_RMASK) = 0 →
      handle_event GRID_SIZE ⟨single 2 20, true, false⟩
        (Event.mouseMotion SDL_BUTTON_RMASK 100 797) = some ⟨single 2 20, true, false⟩) :=
  ⟨by decide, by decide,
    mouse_events ⟨single 2 20, true, false⟩ 100 797 SDL_BUTTON_MIDDLE SDL_BUTTON_RMASK
      (by decide) (by decide)⟩

/-- C13: a key-down of space negates `g_animating` and leaves the grid and
`g_user_quit` alone, so two presses give back the state; a key-down of `c` leaves an
all-dead grid and `g_animating = false` whatever the state was; a key-down of any other
key changes nothing. -/
theorem key_events (s : Shell) (sym : Int) :
    handle_event GRID_SIZE s (Event.keyDown SDLK_SPACE)
      = some ⟨s.grid, !s.animating, s.user_quit⟩ ∧
    handle_events GRID_SIZE s [Event.keyDown SDLK_SPACE, Event.keyDown SDLK_SPACE] = some s ∧
    (∃ g, handle_event GRID_SIZE s (Event.keyDown SDLK_c) = some ⟨g, false, s.user_quit⟩ ∧
      ∀ i j, inBounds i j → g i j = DEAD_CELL) ∧
    (sym ≠ SDLK_SPACE → sym ≠ SDLK_c →
      handle_event GRID_SIZE s (Event.keyDown sym) = some s) := by
  refine ⟨rfl, ?_, ?_, ?_⟩
  · cases s with
    | mk g a q => cases a <;> rfl
  · refine ⟨mapBlock (fun _ _ _ => DEAD_CELL) 0 GRID_SIZE 0 GRID_SIZE s.grid, ?_, ?_⟩
    · rw [handle_event_keyDown, if_neg (by decide), if_pos rfl, init_grid_eq s.grid le_rfl]
      rfl
    · intro i j hij
      unfold inBounds at hij
      unfold mapBlock
      rw [if_pos hij]
  · intro h1 h2
    rw [handle_event_keyDown, if_neg h1, if_neg h2]

/-- C14, the claim as stated fails: `CELL_SIZE * GRID_SIZE` is not `SCREEN_SIZE`, and
`SCREEN_SIZE` is not a multiple of `GRID_SIZE`. -/
theorem cell_size_not_even :
    CELL_SIZE * GRID_SIZE ≠ SCREEN_SIZE ∧ SCREEN_SIZE % GRID_SIZE ≠ 0 := by
  decide

/-- C14, amended: `CELL_SIZE` is the truncated quotient of `SCREEN_SIZE` by `GRID_SIZE`,
38; the `GRID_SIZE` cells span `CELL_SIZE * GRID_SIZE = 798` of the `SCREEN_SIZE = 800`
pixels and leave `SCREEN_SIZE % GRID_SIZE = 2` pixels over. -/
theorem cell_size_truncated :
    CELL_SIZE = 38 ∧ CELL_SIZE * GRID_SIZE = 798 ∧
    CELL_SIZE * GRID_SIZE ≤ SCREEN_SIZE ∧ SCREEN_SIZE < (CELL_SIZE + 1) * GRID_SIZE ∧
    SCREEN_SIZE - CELL_SIZE * GRID_SIZE = SCREEN_SIZE % GRID_SIZE ∧
    SCREEN_SIZE % GRID_SIZE = 2 := by
  decide

/-- C15: on two grids that agree cell for cell, `step` returns grids that agree cell
for cell, whatever the local array `counts` held on entry of either call; and on one
grid the result does not depend on that content at all. -/
theorem step_deterministic (c1 c2 g1 g2 : Grid) (h : SameCells g1 g2) :
    (∃ r1 r2, step c1 g1 GRID_SIZE = some r1 ∧ step c2 g2 GRID_SIZE = some r2 ∧
      SameCells r1 r2) ∧
    step c1 g1 GRID_SIZE = step c2 g1 GRID_SIZE := by
  constructor
  · refine ⟨_, _, step_eq c1 g1 le_rfl, step_eq c2 g2 le_rfl, ?_⟩
    intro i j hij
    rw [stepGrid_apply c1 g1 hij, stepGrid_apply c2 g2 hij, neighbours_congr h le_rfl hij,
      h i j hij]
  · rw [step_eq c1 g1 le_rfl, step_eq c2 g1 le_rfl]
    congr 1
    funext i j
    by_cases hij : inBounds i j
    · rw [stepGrid_apply c1 g1 hij, stepGrid_apply c2 g1 hij]
    · rw [stepGrid_outside _ _ _ hij, stepGrid_outside _ _ _ hij]

theorem step_deterministic_witness :
    (∃ r1 r2, step (fun _ _ => 0) (block 3 3) GRID_SIZE = some r1 ∧
      step (fun _ _ => 5) (fun i j => if inBounds i j then block 3 3 i j else 9) GRID_SIZE
        = some r2 ∧
      SameCells r1 r2) ∧
    step (fun _ _ => 0) (block 3 3) GRID_SIZE = step (fun _ _ => 5) (block 3 3) GRID_SIZE :=
  step_deterministic (fun _ _ => 0) (fun _ _ => 5) (block 3 3)
    (fun i j => if inBounds i j then block 3 3 i j else 9)
    (fun _ _ hij => (if_pos hij).symm)

/-- C16, the code at the failing input: after `set_cell(grid, GRID_SIZE, 1, 1, 2)` on the
all-dead grid, `count_living_neighbours` at `(1, 1)` returns -1: no cell is counted
(none is `== LIVE_CELL`), yet the centre is taken off (it is `!= DEAD_CELL`). -/
theorem count_negative_at_nonbinary_centre :
    ∃ g, set_cell (fun _ _ => DEAD_CELL) GRID_SIZE 1 1 2 = some g ∧
      count_living_neighbours g GRID_SIZE 1 1 = some (-1) :=
  ⟨_, rfl, by decide⟩

/-- C17, the code at the failing input: `step(grid, 1)` on the grid whose only living
cell is `(5, 5)`, with `counts` holding zeros on entry, kills that cell although it lies
outside the 1 x 1 sub-grid. -/
theorem step_small_size_changes_outside :
    ∃ g', step (fun _ _ => 0) (single 5 5) 1 = some g' ∧
      single 5 5 5 5 = LIVE_CELL ∧ g' 5 5 = DEAD_CELL :=
  ⟨_, step_eq _ _ (by decide), by decide, by decide⟩

/-- C18, the claim as stated fails: the pixel coordinate `-1` is negative, yet its grid
index `-1 / CELL_SIZE` is 0, inside `[0, GRID_SIZE)`; and a left click at pixel
`(-1, -1)` changes the grid: cell `(0, 0)` of the all-dead grid becomes alive. -/
theorem negative_pixel_hits_cell_zero :
    (0 ≤ Int.tdiv (-1) CELL_SIZE ∧ Int.tdiv (-1) CELL_SIZE < GRID_SIZE) ∧
    ¬(0 ≤ (-1 : Int) ∧ (-1 : Int) < GRID_SIZE * CELL_SIZE) ∧
    ∃ s', handle_event GRID_SIZE ⟨fun _ _ => DEAD_CELL, false, false⟩
        (Event.mouseButtonDown SDL_BUTTON_LEFT (-1) (-1)) = some s' ∧
      s'.grid 0 0 = LIVE_CELL ∧ s'.grid 0 0 ≠ (fun _ _ => DEAD_CELL : Grid) 0 0 :=
  ⟨by decide, by decide, _, rfl, by decide, by decide⟩

/-- C18, amended: with C++ division truncating toward zero, the grid index
`p / CELL_SIZE` is in `[0, GRID_SIZE)` exactly when `-CELL_SIZE < p < GRID_SIZE * CELL_SIZE`;
a mouse event (motion or button-down) whose pixel `x` or `y` is at most `-CELL_SIZE` or at
least `GRID_SIZE * CELL_SIZE` leaves the grid and both flags unchanged. -/
theorem pixel_index_in_range (s : Shell) (p px py : Int) (button state : Nat) :
    ((0 ≤ Int.tdiv p CELL_SIZE ∧ Int.tdiv p CELL_SIZE < GRID_SIZE)
      ↔ (-CELL_SIZE < p ∧ p < GRID_SIZE * CELL_SIZE)) ∧
    (px ≤ -CELL_SIZE ∨ GRID_SIZE * CELL_SIZE ≤ px ∨
      py ≤ -CELL_SIZE ∨ GRID_SIZE * CELL_SIZE ≤ py →
      handle_event GRID_SIZE s (Event.mouseMotion state px py) = some s ∧
      handle_event GRID_SIZE s (Event.mouseButtonDown button px py) = some s) := by
  refine ⟨tdiv_cell_in_range p, fun h => ?_⟩
  have hout : Int.tdiv px CELL_SIZE < 0 ∨ Int.tdiv px CELL_SIZE ≥ GRID_SIZE ∨
      Int.tdiv py CELL_SIZE < 0 ∨ Int.tdiv py CELL_SIZE ≥ GRID_SIZE := by
    have hx := tdiv_cell_in_range px
    have hy := tdiv_cell_in_range py
    by_contra hc
    have h1 := hx.1 ⟨by omega, by omega⟩
    have h2 := hy.1 ⟨by omega, by omega⟩
    omega
  have hset : ∀ v, set_cell s.grid GRID_SIZE (Int.tdiv px CELL_SIZE) (Int.tdiv py CELL_SIZE) v
      = some s.grid := by
    intro v
    unfold set_cell
    rw [if_neg (by omega)]
  constructor
  · by_cases hb : state &&& (SDL_BUTTON_LMASK ||| SDL_BUTTON_RMASK) = 0
    · exact handle_event_motion_free s GRID_SIZE px py hb
    · rw [handle_event_motion_held s GRID_SIZE px py hb, hset]
      rfl
  · rw [handle_event_buttonDown, hset]
    rfl

/-- C19: with every array access checked against `[0, GRID_SIZE)`, `step(grid, GRID_SIZE)`
runs to its end, none of its reads and writes of `grid` and `counts` (those of
`count_living_neighbours` and `update_cell` included) being out of bounds; so does
`count_living_neighbours(grid, size, x, y)` for `0 ≤ x, y < size ≤ GRID_SIZE`. -/
theorem accesses_in_bounds (counts0 grid : Grid) (size x y : Int)
    (hx : 0 ≤ x ∧ x < size) (hy : 0 ≤ y ∧ y < size) (hs : size ≤ GRID_SIZE) :
    (step counts0 grid GRID_SIZE).isSome = true ∧
    (count_living_neighbours grid size x y).isSome = true := by
  rw [step_eq counts0 grid le_rfl,
    count_living_neighbours_eq grid hs ⟨hy.1, by omega, hx.1, by omega⟩]
  exact ⟨rfl, rfl⟩

theorem accesses_in_bounds_witness :
    ((0 : Int) ≤ 6 ∧ (6 : Int) < 7) ∧ ((0 : Int) ≤ 0 ∧ (0 : Int) < 7) ∧ (7 : Int) ≤ GRID_SIZE ∧
    (step (fun _ _ => -4) (fun i j => i * j) GRID_SIZE).isSome = true ∧
    (count_living_neighbours (fun i j => i * j) 7 6 0).isSome = true :=
  ⟨by decide, by decide, by decide,
    accesses_in_bounds (fun _ _ => -4) (fun i j => i * j) 7 6 0 (by decide) (by decide)
      (by decide)⟩

end Conway
